import Mathlib

/-!
# Order submission handler of `server.js`

A shallow embedding of the `POST /api/orders` handler (`src/server.js`, lines 53-112)
and of the values it manipulates.

* JavaScript numbers are `JNum F`: either `NaN` or a value of a carrier `F` whose
  arithmetic is supplied by a `Runtime F`.  Every theorem that quantifies over the
  runtime therefore holds for IEEE doubles as well as for the exact integer runtime
  `intRuntime` used to evaluate the handler on concrete requests.
* The relational store behind `./db` is modelled by `Conn`: a connection with the two
  tables, the key counter, the snapshot taken by `beginTransaction` and a log of every
  call the handler makes.  Which calls the store rejects is decided by an oracle
  `Env.rejects`, indexed by the position of the call on the connection.
* The embedding starts once `await pool.getConnection()` (line 54) has resolved.
* Request bodies are parsed JSON: `items`, when present, is an array whose entries are `null`
  or objects, and the fields of the body and of its items hold primitive values.
-/

namespace OrderServer

/-! ## JavaScript values -/

/-- A JavaScript number: `NaN`, or a value of the carrier (finite values, signed zeros and
infinities in the case of IEEE doubles). -/
inductive JNum (F : Type) where
  | nan : JNum F
  | fin (x : F) : JNum F
  deriving DecidableEq

/-- Modelled from the spec: the JavaScript engine and the Unicode tables are not part of the
repository; the primitives of the language that the handler relies on are taken as a parameter.
`add` and `mul` act on operands that are not `NaN`; `stringToNumber` is `ToNumber` on a string,
`parseFloatString` is the global `parseFloat` on a string, `numberToString` is `ToString` on a
number that is not `NaN`, `isZero` recognises `+0` and `-0`, and `upperNonAscii` is the
upper-case mapping of a character outside ASCII. -/
structure Runtime (F : Type) where
  zero : F
  one : F
  isZero : F → Bool
  add : F → F → JNum F
  mul : F → F → JNum F
  stringToNumber : String → JNum F
  parseFloatString : String → JNum F
  numberToString : F → String
  upperNonAscii : Char → List Char

/-- A primitive JavaScript value, as found in a field of a parsed JSON body
(`undefined` stands for an absent field). -/
inductive JVal (F : Type) where
  | undefined : JVal F
  | null : JVal F
  | bool (b : Bool) : JVal F
  | num (n : JNum F) : JVal F
  | str (s : String) : JVal F
  deriving DecidableEq

variable {F : Type}

/-- Number addition `a + b`: `NaN` is absorbing. -/
def jadd (R : Runtime F) : JNum F → JNum F → JNum F
  | .fin a, .fin b => R.add a b
  | _, _ => .nan

/-- Number multiplication `a * b`: `NaN` is absorbing. -/
def jmul (R : Runtime F) : JNum F → JNum F → JNum F
  | .fin a, .fin b => R.mul a b
  | _, _ => .nan

/-- The abstract operation `ToBoolean`. -/
def truthy (R : Runtime F) : JVal F → Bool
  | .undefined => false
  | .null => false
  | .bool b => b
  | .num .nan => false
  | .num (.fin x) => !R.isZero x
  | .str s => !s.isEmpty

/-- The operator `a || b`. -/
def orElse (R : Runtime F) (a b : JVal F) : JVal F :=
  if truthy R a then a else b

/-- Whether a value is `null` or `undefined`. -/
def nullish : JVal F → Bool
  | .undefined => true
  | .null => true
  | _ => false

/-- The operator `a ?? b`. -/
def coalesce (a b : JVal F) : JVal F :=
  if nullish a then b else a

/-- The abstract operation `ToNumber` on a primitive value. -/
def toNumber (R : Runtime F) : JVal F → JNum F
  | .undefined => .nan
  | .null => .fin R.zero
  | .bool true => .fin R.one
  | .bool false => .fin R.zero
  | .num n => n
  | .str s => R.stringToNumber s

/-- The global `parseFloat(v)`: the argument is converted to a string, which is then parsed.
The strings "undefined", "null", "true", "false" and "NaN" do not begin a decimal literal. -/
def parseFloat (R : Runtime F) : JVal F → JNum F
  | .undefined => .nan
  | .null => .nan
  | .bool _ => .nan
  | .num .nan => .nan
  | .num (.fin x) => R.parseFloatString (R.numberToString x)
  | .str s => R.parseFloatString s

/-! ## Order numbers -/

/-- The expression `s.split('-')[0]`: the characters before the first hyphen. -/
def firstSegment (s : List Char) : List Char :=
  s.takeWhile (fun c => c != '-')

/-- The method `s.toUpperCase()`. -/
def toUpperCase (R : Runtime F) (s : List Char) : List Char :=
  s.flatMap (fun c => if c.toNat < 128 then [c.toUpper] else R.upperNonAscii c)

/-- Line 61: `'ORD-' + uuidv4().split('-')[0].toUpperCase()`, given the token that
`uuidv4()` returned. -/
def orderNumber (R : Runtime F) (uuid : String) : String :=
  "ORD-" ++ String.mk (toUpperCase R (firstSegment uuid.toList))

/-! ## Requests -/

/-- One entry of `payload.items`. -/
structure Item (F : Type) where
  customer_id : JVal F
  menu_item_id : JVal F
  quantity : JVal F
  unit_price : JVal F
  total_price : JVal F
  spicy_level : JVal F
  protein_choice : JVal F
  special_notes : JVal F
  deriving DecidableEq

/-- An entry of the array `payload.items`: `null`, or an object with its fields. An entry
that is neither (a number, a string) has none of the fields the handler reads and behaves as
the object without fields. -/
inductive Entry (F : Type) where
  | null : Entry F
  | object (it : Item F) : Entry F
  deriving DecidableEq

/-- The request body. `items = none` stands for a missing (or `null`) `items` field. -/
structure Payload (F : Type) where
  items : Option (List (Entry F))
  session_id : JVal F
  table_id : JVal F
  queue_number : JVal F
  special_instructions : JVal F
  deriving DecidableEq

/-! ## Statements and the store -/

/-- The bound parameters of `INSERT INTO orders` (lines 64-74). -/
structure OrderParams (F : Type) where
  order_number : String
  session_id : JVal F
  table_id : JVal F
  total_amount : JVal F
  queue_number : JVal F
  special_instructions : JVal F
  deriving DecidableEq

/-- The bound parameters of `INSERT INTO order_items` (lines 83-96); they are also the row
the store keeps. -/
structure ItemRow (F : Type) where
  order_id : Nat
  customer_id : JVal F
  menu_item_id : JVal F
  quantity : JVal F
  unit_price : JVal F
  total_price : JNum F
  spicy_level : JVal F
  protein_choice : JVal F
  special_notes : JVal F
  deriving DecidableEq

/-- The three statements the handler sends through `connection.query`. -/
inductive Stmt (F : Type) where
  | insertOrder (p : OrderParams F) : Stmt F
  | insertItem (p : ItemRow F) : Stmt F
  | updateTotal (total : JNum F) (id : Nat) : Stmt F
  deriving DecidableEq

/-- A call on the connection. -/
inductive Call (F : Type) where
  | beginTransaction : Call F
  | query (s : Stmt F) : Call F
  | commit : Call F
  | rollback : Call F
  | release : Call F
  deriving DecidableEq

/-- A row of `orders`: the key assigned by the store and the inserted columns. -/
structure OrderRow (F : Type) where
  id : Nat
  cols : OrderParams F
  deriving DecidableEq

/-- The two tables. -/
structure Tables (F : Type) where
  orders : List (OrderRow F)
  order_items : List (ItemRow F)
  deriving DecidableEq

/-- Modelled from the spec: the pool of `./db` and the relational store behind it are not part
of `src/`. A connection sees the two tables and the next key of `orders`; `beginTransaction`
keeps a snapshot of the tables, `rollback` puts the snapshot back (discarding every statement
since `beginTransaction`), `commit` drops it. `calls` counts the round-trips made on the
connection and `log` records every call in order. -/
structure Conn (F : Type) where
  tables : Tables F
  nextId : Nat
  saved : Option (Tables F)
  calls : Nat
  log : List (Call F)
  deriving DecidableEq

/-- The connection handed out by `pool.getConnection()` on a store with the given tables. -/
def Conn.acquire (tables : Tables F) (nextId : Nat) : Conn F :=
  { tables := tables, nextId := nextId, saved := none, calls := 0, log := [] }

/-- The `UPDATE orders SET total_amount = ? WHERE id = ?` of line 100, on one row. -/
def setTotal (total : JNum F) (id : Nat) (r : OrderRow F) : OrderRow F :=
  if r.id = id then { r with cols := { r.cols with total_amount := .num total } } else r

/-- The effect of an accepted statement on the tables and the key counter. -/
def Conn.applyStmt (c : Conn F) : Stmt F → Conn F
  | .insertOrder p =>
    { c with
      tables := { c.tables with orders := c.tables.orders ++ [{ id := c.nextId, cols := p }] },
      nextId := c.nextId + 1 }
  | .insertItem p =>
    { c with tables := { c.tables with order_items := c.tables.order_items ++ [p] } }
  | .updateTotal total id =>
    { c with
      tables := { c.tables with
        orders := c.tables.orders.map (setTotal total id) } }

/-- The effect of an accepted call. -/
def Conn.applyCall (c : Conn F) : Call F → Conn F
  | .beginTransaction => { c with saved := some c.tables }
  | .query s => c.applyStmt s
  | .commit => { c with saved := none }
  | .rollback =>
    match c.saved with
    | some t => { c with tables := t, saved := none }
    | none => c
  | .release => c

/-- One awaited round-trip: the call is logged; the store rejects it (the promise rejects,
`false`) when the oracle says so, and otherwise carries it out. -/
def Conn.call (rejects : Nat → Bool) (c : Conn F) (ev : Call F) : Bool × Conn F :=
  let c1 : Conn F := { c with calls := c.calls + 1, log := c.log ++ [ev] }
  if rejects c.calls then (false, c1) else (true, c1.applyCall ev)

/-- The call `await connection.query(sql, params)`: `none` when the store rejects the statement,
otherwise the `insertId` of the result, which is the key given to the new `orders` row in the
case of the header insert (the handler reads the result of no other statement). -/
def Conn.query (rejects : Nat → Bool) (c : Conn F) (s : Stmt F) : Option Nat × Conn F :=
  match c.call rejects (.query s) with
  | (false, c1) => (none, c1)
  | (true, c1) => (some c.nextId, c1)

/-- The synchronous `connection.release()`. -/
def Conn.release (c : Conn F) : Conn F :=
  { c with log := c.log ++ [.release] }

/-- Whether a call is `connection.release()`. -/
def Call.isRelease : Call F → Bool
  | .release => true
  | _ => false

/-- Whether a call is a statement sent through `connection.query`. -/
def Call.isQuery : Call F → Bool
  | .query _ => true
  | _ => false

/-- How many times the connection was released. -/
def Conn.released (c : Conn F) : Nat :=
  c.log.countP Call.isRelease

/-! ## The handler -/

/-- What the handler gets from its surroundings during one request: the token returned by
`uuidv4()`, the value of `Date.now()`, and the store's verdict on each round-trip. -/
structure Env (F : Type) where
  uuid : String
  now : F
  rejects : Nat → Bool

/-- The JSON body of a response. -/
inductive Body where
  | error (message : String) : Body
  | created (order_id : Nat) (order_number : String) : Body
  deriving DecidableEq

/-- A response: status code and body. -/
structure Response where
  status : Nat
  body : Body
  deriving DecidableEq

/-- Lines 67-74: the parameters of the header insert. -/
def headerParams (R : Runtime F) (env : Env F) (payload : Payload F) : OrderParams F :=
  { order_number := orderNumber R env.uuid,
    session_id := orElse R payload.session_id (.str ("S" ++ R.numberToString env.now)),
    table_id := orElse R payload.table_id (.num (.fin R.one)),
    total_amount := .num (.fin R.zero),
    queue_number := orElse R payload.queue_number (.str "A00"),
    special_instructions := orElse R payload.special_instructions .null }

/-- Line 80: `parseFloat(it.total_price ?? (it.unit_price * it.quantity))`. -/
def totalPrice (R : Runtime F) (it : Item F) : JNum F :=
  parseFloat R
    (coalesce it.total_price (.num (jmul R (toNumber R it.unit_price) (toNumber R it.quantity))))

/-- Lines 86-96: the parameters of an item insert. -/
def itemParams (R : Runtime F) (orderId : Nat) (it : Item F) : ItemRow F :=
  { order_id := orderId,
    customer_id := orElse R it.customer_id .null,
    menu_item_id := it.menu_item_id,
    quantity := orElse R it.quantity (.num (.fin R.one)),
    unit_price := it.unit_price,
    total_price := totalPrice R it,
    spicy_level := orElse R it.spicy_level (.num (.fin R.zero)),
    protein_choice := orElse R it.protein_choice (.str "Original"),
    special_notes := orElse R it.special_notes .null }

/-- Lines 79-98: the loop over `payload.items`, with the running `orderTotal`. The result is
`none` when the loop is left by an exception, and the final `orderTotal` otherwise. An
exception is thrown by `it.total_price` on line 80 when the entry `it` is `null` (a
`TypeError`, before any call is made for that entry), and by a rejected insert. -/
def insertItems (R : Runtime F) (rejects : Nat → Bool) (orderId : Nat) :
    List (Entry F) → JNum F → Conn F → Option (JNum F) × Conn F
  | [], orderTotal, c => (some orderTotal, c)
  | .null :: _, _, c => (none, c)
  | .object it :: rest, orderTotal, c =>
    let orderTotal1 := jadd R orderTotal (totalPrice R it)
    match c.query rejects (.insertItem (itemParams R orderId it)) with
    | (none, c1) => (none, c1)
    | (some _, c1) => insertItems R rejects orderId rest orderTotal1 c1

/-- Lines 59-105: the statements of the `try` block after validation. The result is `none`
when an exception was thrown, and the response sent otherwise. -/
def tryBlock (R : Runtime F) (env : Env F) (payload : Payload F) (items : List (Entry F))
    (c : Conn F) : Option Response × Conn F :=
  match c.call env.rejects .beginTransaction with
  | (false, c1) => (none, c1)
  | (true, c1) =>
    match c1.query env.rejects (.insertOrder (headerParams R env payload)) with
    | (none, c2) => (none, c2)
    | (some orderId, c2) =>
      match insertItems R env.rejects orderId items (.fin R.zero) c2 with
      | (none, c3) => (none, c3)
      | (some orderTotal, c3) =>
        match c3.query env.rejects (.updateTotal orderTotal orderId) with
        | (none, c4) => (none, c4)
        | (some _, c4) =>
          match c4.call env.rejects .commit with
          | (false, c5) => (none, c5)
          | (true, c5) =>
            (some { status := 200, body := .created orderId (orderNumber R env.uuid) },
              c5.release)

/-- Lines 106-111: the `catch` block. When `connection.rollback()` itself rejects, the
exception leaves the handler: nothing is released and no response is sent. -/
def catchBlock (env : Env F) (c : Conn F) : Option Response × Conn F :=
  match c.call env.rejects .rollback with
  | (false, c1) => (none, c1)
  | (true, c1) => (some { status := 500, body := .error "Failed to create order" }, c1.release)

/-- Lines 53-112: the handler of `POST /api/orders`, run on the acquired connection `c`.
`body = none` stands for a request without a parsed body. The result is the response sent
(if any) and the connection as the handler leaves it. -/
def postOrders (R : Runtime F) (env : Env F) (body : Option (Payload F)) (c : Conn F) :
    Option Response × Conn F :=
  match body with
  | none => (some { status := 400, body := .error "Order must include items" }, c)
  | some payload =>
    match payload.items with
    | none => (some { status := 400, body := .error "Order must include items" }, c)
    | some items =>
      if items.length = 0 then
        (some { status := 400, body := .error "Order must include items" }, c)
      else
        match tryBlock R env payload items c with
        | (some res, c1) => (some res, c1)
        | (none, c1) => catchBlock env c1

/-- The value of a string of decimal digits. -/
def digitsValue (ds : List Char) : Nat :=
  ds.foldl (fun n d => 10 * n + (d.toNat - 48)) 0

/-- Reading a plain decimal integer, with an optional minus sign; `NaN` for any other string. -/
def readInt (s : String) : JNum Int :=
  match s.toList with
  | '-' :: ds => if !ds.isEmpty && ds.all Char.isDigit then .fin (-(digitsValue ds : Int)) else .nan
  | ds => if !ds.isEmpty && ds.all Char.isDigit then .fin (digitsValue ds : Int) else .nan

/-- The exact integer runtime: numbers are integers, on which the arithmetic of doubles is
exact below `2^53`; strings are read as plain decimal integers. -/
def intRuntime : Runtime Int where
  zero := 0
  one := 1
  isZero := fun x => x == 0
  add := fun a b => .fin (a + b)
  mul := fun a b => .fin (a * b)
  stringToNumber := readInt
  parseFloatString := readInt
  numberToString := fun x => toString x
  upperNonAscii := fun c => [c]

/-- A hexadecimal digit `0-9`, `a-f` or `A-F`. -/
def isHexDigit (c : Char) : Bool :=
  (48 ≤ c.toNat && c.toNat ≤ 57) || (97 ≤ c.toNat && c.toNat ≤ 102) ||
    (65 ≤ c.toNat && c.toNat ≤ 70)

/-- An upper-case letter `A-Z` or a digit `0-9`. -/
def isUpperAlnum (c : Char) : Bool :=
  (65 ≤ c.toNat && c.toNat ≤ 90) || (48 ≤ c.toNat && c.toNat ≤ 57)

/-- The keys in use are below the next key the store hands out. -/
def Tables.keysBelow (t : Tables F) (n : Nat) : Prop :=
  (∀ r ∈ t.orders, r.id < n) ∧ (∀ r ∈ t.order_items, r.order_id < n)

/-- The value of a JavaScript number under a reading `val` of the carrier as rationals;
`NaN` has no value. -/
def numValue (val : F → ℚ) : JNum F → Option ℚ
  | .nan => none
  | .fin x => some (val x)

/-- The sum of a list of prices as the specification means it: the rational sum of the
values, and no value as soon as one price has none. -/
def exactSum : List (Option ℚ) → Option ℚ
  | [] => some 0
  | none :: _ => none
  | some a :: rest => (exactSum rest).map (fun s => a + s)

/-- A runtime whose addition is exact under the reading `val`: `0` reads as zero and the
sum of two numbers reads as the sum of their readings (as for doubles on integers below
`2^53`). -/
def Runtime.ExactAdd (R : Runtime F) (val : F → ℚ) : Prop :=
  val R.zero = 0 ∧ ∀ a b, ∃ c, R.add a b = .fin c ∧ val c = val a + val b

/-- The sum `0 + t_1 + ... + t_n` of JavaScript numbers, taken from left to right. -/
def sumNumbers (R : Runtime F) (ts : List (JNum F)) : JNum F :=
  ts.foldl (jadd R) (.fin R.zero)

/-- The calls of a request whose every round-trip is accepted. -/
def successLog (R : Runtime F) (env : Env F) (payload : Payload F) (items : List (Item F))
    (orderId : Nat) : List (Call F) :=
  [.beginTransaction, .query (.insertOrder (headerParams R env payload))] ++
    items.map (fun it => .query (.insertItem (itemParams R orderId it))) ++
    [.query (.updateTotal (sumNumbers R (items.map (totalPrice R))) orderId), .commit, .release]

/-! ## Concrete requests -/

/-- The item `{ menu_item_id: 5, unit_price: 12, quantity: 2 }`. -/
def sampleItem : Item Int :=
  { customer_id := .undefined, menu_item_id := .num (.fin 5), quantity := .num (.fin 2),
    unit_price := .num (.fin 12), total_price := .undefined, spicy_level := .undefined,
    protein_choice := .undefined, special_notes := .undefined }

/-- The item `{ menu_item_id: 7, unit_price: 7, quantity: 3 }`. -/
def secondItem : Item Int :=
  { customer_id := .undefined, menu_item_id := .num (.fin 7), quantity := .num (.fin 3),
    unit_price := .num (.fin 7), total_price := .undefined, spicy_level := .undefined,
    protein_choice := .undefined, special_notes := .undefined }

/-- The item `{ menu_item_id: 5, unit_price: 12 }`: no quantity, no total price. -/
def itemWithoutQuantity : Item Int :=
  { customer_id := .undefined, menu_item_id := .num (.fin 5), quantity := .undefined,
    unit_price := .num (.fin 12), total_price := .undefined, spicy_level := .undefined,
    protein_choice := .undefined, special_notes := .undefined }

/-- The body `{ items: [{ menu_item_id: 5, unit_price: 12, quantity: 2 }] }`. -/
def samplePayload : Payload Int :=
  { items := some [.object sampleItem], session_id := .undefined, table_id := .undefined,
    queue_number := .undefined, special_instructions := .undefined }

/-- The body `{ items: [{ menu_item_id: 5, unit_price: 12 }] }`. -/
def payloadWithoutQuantity : Payload Int :=
  { items := some [.object itemWithoutQuantity], session_id := .undefined, table_id := .undefined,
    queue_number := .undefined, special_instructions := .undefined }

/-- The body `{ items: [{ menu_item_id: 5, unit_price: 12, quantity: 2 }], session_id: "",
table_id: 0, queue_number: "" }`. -/
def payloadFalsyFields : Payload Int :=
  { items := some [.object sampleItem], session_id := .str "", table_id := .num (.fin 0),
    queue_number := .str "", special_instructions := .undefined }

/-- The body `{ items: [{ menu_item_id: 5, unit_price: 12, quantity: 2 },
{ menu_item_id: 7, unit_price: 7, quantity: 3 }] }`. -/
def payloadTwoItems : Payload Int :=
  { items := some [.object sampleItem, .object secondItem], session_id := .undefined,
    table_id := .undefined, queue_number := .undefined, special_instructions := .undefined }

/-- The body `{ items: [null] }`. -/
def payloadNullEntry : Payload Int :=
  { items := some [.null], session_id := .undefined, table_id := .undefined,
    queue_number := .undefined, special_instructions := .undefined }

/-- The body `{ items: [] }`. -/
def payloadNoItems : Payload Int :=
  { items := some [], session_id := .undefined, table_id := .undefined,
    queue_number := .undefined, special_instructions := .undefined }

/-- A request during which the store accepts every call. -/
def sampleEnv : Env Int :=
  { uuid := "3f2a9c1e-1111-4111-8111-111111111111", now := 1700000000000,
    rejects := fun _ => false }

/-- A later request whose token differs from that of `sampleEnv` after the first hyphen. -/
def twinEnv : Env Int :=
  { uuid := "3f2a9c1e-2222-4222-8222-222222222222", now := 1700000000001,
    rejects := fun _ => false }

/-- A request during which the store rejects the insert of the first item (the third call). -/
def rejectingEnv : Env Int :=
  { uuid := "3f2a9c1e-1111-4111-8111-111111111111", now := 1700000000000,
    rejects := fun i => i == 2 }

/-- A store without rows. -/
def emptyTables : Tables Int :=
  { orders := [], order_items := [] }

/-! # Theorems -/

/-! ## Round-trips -/

theorem call_accept (rejects : Nat → Bool) (c : Conn F) (ev : Call F)
    (h : rejects c.calls = false) :
    c.call rejects ev =
      (true, ({ c with calls := c.calls + 1, log := c.log ++ [ev] } : Conn F).applyCall ev) := by
  simp [Conn.call, h]

theorem call_reject (rejects : Nat → Bool) (c : Conn F) (ev : Call F)
    (h : rejects c.calls = true) :
    c.call rejects ev = (false, { c with calls := c.calls + 1, log := c.log ++ [ev] }) := by
  simp [Conn.call, h]

theorem query_accept (rejects : Nat → Bool) (c : Conn F) (s : Stmt F)
    (h : rejects c.calls = false) :
    c.query rejects s =
      (some c.nextId,
        ({ c with calls := c.calls + 1, log := c.log ++ [.query s] } : Conn F).applyStmt s) := by
  simp [Conn.query, call_accept rejects c _ h, Conn.applyCall]

theorem query_reject (rejects : Nat → Bool) (c : Conn F) (s : Stmt F)
    (h : rejects c.calls = true) :
    c.query rejects s =
      (none, { c with calls := c.calls + 1, log := c.log ++ [.query s] }) := by
  simp [Conn.query, call_reject rejects c _ h]

/-! ## The item loop -/

theorem insertItems_accept (R : Runtime F) (rejects : Nat → Bool) (orderId : Nat) :
    ∀ (items : List (Item F)) (total : JNum F) (c : Conn F),
      (∀ j, j < items.length → rejects (c.calls + j) = false) →
      insertItems R rejects orderId (items.map Entry.object) total c =
        (some ((items.map (totalPrice R)).foldl (jadd R) total),
          { c with
            tables := { c.tables with
              order_items := c.tables.order_items ++ items.map (itemParams R orderId) },
            calls := c.calls + items.length,
            log := c.log ++ items.map (fun it => .query (.insertItem (itemParams R orderId it))) })
  | [], total, c, _ => by simp [insertItems]
  | it :: rest, total, c, h => by
    have h0 : rejects c.calls = false := by simpa using h 0 (by simp)
    have hrest : ∀ j, j < rest.length → rejects (c.calls + 1 + j) = false := by
      intro j hj
      have := h (j + 1) (by simpa using hj)
      simpa [Nat.add_assoc, Nat.add_comm 1 j] using this
    rw [List.map_cons, insertItems, query_accept rejects c _ h0]
    simp only [Conn.applyStmt]
    rw [insertItems_accept R rejects orderId rest _ _ hrest]
    simp [Nat.add_assoc, Nat.add_comm 1]

theorem insertItems_reject (R : Runtime F) (rejects : Nat → Bool) (orderId : Nat) :
    ∀ (pre : List (Item F)) (it : Item F) (post : List (Entry F)) (total : JNum F) (c : Conn F),
      (∀ j, j < pre.length → rejects (c.calls + j) = false) →
      rejects (c.calls + pre.length) = true →
      insertItems R rejects orderId (pre.map Entry.object ++ .object it :: post) total c =
        (none,
          { c with
            tables := { c.tables with
              order_items := c.tables.order_items ++ pre.map (itemParams R orderId) },
            calls := c.calls + pre.length + 1,
            log := c.log ++
              (pre ++ [it]).map (fun i => .query (.insertItem (itemParams R orderId i))) })
  | [], it, post, total, c, _, hr => by
    have h0 : rejects c.calls = true := by simpa using hr
    simp [insertItems, query_reject rejects c _ h0]
  | p :: pre, it, post, total, c, h, hr => by
    have h0 : rejects c.calls = false := by simpa using h 0 (by simp)
    have hpre : ∀ j, j < pre.length → rejects (c.calls + 1 + j) = false := by
      intro j hj
      have := h (j + 1) (by simpa using hj)
      simpa [Nat.add_assoc, Nat.add_comm 1 j] using this
    have hr1 : rejects (c.calls + 1 + pre.length) = true := by
      simpa [Nat.add_assoc, Nat.add_comm 1] using hr
    rw [List.map_cons, List.cons_append, insertItems, query_accept rejects c _ h0]
    simp only [Conn.applyStmt]
    rw [insertItems_reject R rejects orderId pre it post _ _ hpre hr1]
    simp [Nat.add_assoc, Nat.add_comm 1]

theorem insertItems_some (R : Runtime F) (rejects : Nat → Bool) (orderId : Nat) :
    ∀ (entries : List (Entry F)) (total : JNum F) (c : Conn F) (t : JNum F),
      (insertItems R rejects orderId entries total c).1 = some t →
      ∃ items : List (Item F), entries = items.map Entry.object ∧
        ∀ j, j < items.length → rejects (c.calls + j) = false
  | [], _, _, _, _ => ⟨[], rfl, by simp⟩
  | .null :: _, _, _, _, h => by simp [insertItems] at h
  | .object it :: rest, total, c, t, h => by
    by_cases h0 : rejects c.calls = true
    · simp [insertItems, query_reject rejects c _ h0] at h
    · have h0 : rejects c.calls = false := by simpa using h0
      rw [insertItems, query_accept rejects c _ h0] at h
      simp only [Conn.applyStmt] at h
      obtain ⟨items, hrest, ih⟩ := insertItems_some R rejects orderId rest _ _ t h
      refine ⟨it :: items, by rw [hrest, List.map_cons], ?_⟩
      intro j hj
      cases j with
      | zero => simpa using h0
      | succ j =>
        have := ih j (by simpa using hj)
        simpa [Nat.add_assoc, Nat.add_comm 1 j] using this

/-! ## The `try` block -/

/-- The connection after a request whose every round-trip was accepted. -/
theorem tryBlock_accept (R : Runtime F) (env : Env F) (p : Payload F) (items : List (Item F))
    (c : Conn F) (h : ∀ i, i ≤ items.length + 3 → env.rejects (c.calls + i) = false) :
    tryBlock R env p (items.map Entry.object) c =
      (some { status := 200, body := .created c.nextId (orderNumber R env.uuid) },
        { tables :=
            { orders := (c.tables.orders ++ [(⟨c.nextId, headerParams R env p⟩ : OrderRow F)]).map
                (setTotal (sumNumbers R (items.map (totalPrice R))) c.nextId),
              order_items := c.tables.order_items ++ items.map (itemParams R c.nextId) },
          nextId := c.nextId + 1,
          saved := none,
          calls := c.calls + (items.length + 4),
          log := c.log ++ successLog R env p items c.nextId }) := by
  have h0 : env.rejects c.calls = false := by simpa using h 0 (by omega)
  have h1 : env.rejects (c.calls + 1) = false := h 1 (by omega)
  have hI : ∀ j, j < items.length → env.rejects (c.calls + 1 + 1 + j) = false := by
    intro j hj
    have := h (j + 2) (by omega)
    rw [show c.calls + 1 + 1 + j = c.calls + (j + 2) by omega]
    exact this
  have hU : env.rejects (c.calls + 1 + 1 + items.length) = false := by
    have := h (items.length + 2) (by omega)
    rw [show c.calls + 1 + 1 + items.length = c.calls + (items.length + 2) by omega]
    exact this
  have hC : env.rejects (c.calls + 1 + 1 + items.length + 1) = false := by
    have := h (items.length + 3) (by omega)
    rw [show c.calls + 1 + 1 + items.length + 1 = c.calls + (items.length + 3) by omega]
    exact this
  rw [tryBlock, call_accept _ _ _ h0]
  simp only [Conn.applyCall]
  rw [query_accept _ _ _ h1]
  simp only [Conn.applyStmt]
  rw [insertItems_accept R env.rejects _ items _ _ hI]
  simp only []
  rw [query_accept _ _ _ hU]
  simp only [Conn.applyStmt]
  rw [call_accept _ _ _ hC]
  simp [Conn.applyCall, Conn.release, successLog, sumNumbers]
  have e : c.calls + 1 + 1 + items.length + 1 + 1 = c.calls + (items.length + 4) := by
    generalize c.calls = a
    generalize items.length = b
    omega
  exact e

theorem tryBlock_some (R : Runtime F) (env : Env F) (p : Payload F)
    (entries : List (Entry F)) (c : Conn F) (res : Response)
    (h : (tryBlock R env p entries c).1 = some res) :
    ∃ items : List (Item F), entries = items.map Entry.object ∧
      ∀ i, i ≤ items.length + 3 → env.rejects (c.calls + i) = false := by
  by_cases h0 : env.rejects c.calls = true
  · simp [tryBlock, call_reject _ _ _ h0] at h
  have h0 : env.rejects c.calls = false := by simpa using h0
  rw [tryBlock, call_accept _ _ _ h0] at h
  simp only [Conn.applyCall] at h
  by_cases h1 : env.rejects (c.calls + 1) = true
  · rw [query_reject _ _ _ h1] at h
    simp at h
  have h1 : env.rejects (c.calls + 1) = false := by simpa using h1
  rw [query_accept _ _ _ h1] at h
  simp only [Conn.applyStmt] at h
  have hI : ∃ items : List (Item F), entries = items.map Entry.object ∧
      ∀ j, j < items.length → env.rejects (c.calls + 1 + 1 + j) = false := by
    cases hL : insertItems R env.rejects c.nextId entries (.fin R.zero)
        ({ tables := { orders := c.tables.orders ++ [⟨c.nextId, headerParams R env p⟩],
                       order_items := c.tables.order_items },
           nextId := c.nextId + 1, saved := some c.tables, calls := c.calls + 1 + 1,
           log := c.log ++ [.beginTransaction] ++
             [.query (.insertOrder (headerParams R env p))] } : Conn F) with
    | mk r c3 =>
      cases r with
      | none => rw [hL] at h; simp at h
      | some t =>
        exact insertItems_some R env.rejects c.nextId entries _ _ t (by rw [hL])
  obtain ⟨items, rfl, hI⟩ := hI
  refine ⟨items, rfl, ?_⟩
  rw [insertItems_accept R env.rejects _ items _ _ hI] at h
  simp only [] at h
  by_cases hU : env.rejects (c.calls + 1 + 1 + items.length) = true
  · rw [query_reject _ _ _ hU] at h
    simp at h
  have hU : env.rejects (c.calls + 1 + 1 + items.length) = false := by simpa using hU
  rw [query_accept _ _ _ hU] at h
  simp only [Conn.applyStmt] at h
  by_cases hC : env.rejects (c.calls + 1 + 1 + items.length + 1) = true
  · rw [call_reject _ _ _ hC] at h
    simp at h
  have hC : env.rejects (c.calls + 1 + 1 + items.length + 1) = false := by simpa using hC
  intro i hi
  by_cases e0 : i = 0
  · subst e0; simpa using h0
  by_cases e1 : i = 1
  · subst e1; exact h1
  by_cases e2 : i < items.length + 2
  · have := hI (i - 2) (by omega)
    rw [show c.calls + 1 + 1 + (i - 2) = c.calls + i by omega] at this
    exact this
  by_cases e3 : i = items.length + 2
  · subst e3
    rw [show c.calls + (items.length + 2) = c.calls + 1 + 1 + items.length by omega]
    exact hU
  have e4 : i = items.length + 3 := by omega
  subst e4
  rw [show c.calls + (items.length + 3) = c.calls + 1 + 1 + items.length + 1 by omega]
  exact hC

theorem catchBlock_status (env : Env F) (c : Conn F) (res : Response)
    (h : (catchBlock env c).1 = some res) : res.status = 500 := by
  by_cases h0 : env.rejects c.calls = true
  · simp [catchBlock, call_reject _ _ _ h0] at h
  · have h0 : env.rejects c.calls = false := by simpa using h0
    simp [catchBlock, call_accept _ _ _ h0] at h
    rw [← h]

/-! ## The handler -/

theorem postOrders_accept (R : Runtime F) (env : Env F) (p : Payload F) (items : List (Item F))
    (c : Conn F) (hitems : p.items = some (items.map Entry.object)) (hne : items ≠ [])
    (h : ∀ i, i ≤ items.length + 3 → env.rejects (c.calls + i) = false) :
    postOrders R env (some p) c =
      (some { status := 200, body := .created c.nextId (orderNumber R env.uuid) },
        { tables :=
            { orders := (c.tables.orders ++ [(⟨c.nextId, headerParams R env p⟩ : OrderRow F)]).map
                (setTotal (sumNumbers R (items.map (totalPrice R))) c.nextId),
              order_items := c.tables.order_items ++ items.map (itemParams R c.nextId) },
          nextId := c.nextId + 1,
          saved := none,
          calls := c.calls + (items.length + 4),
          log := c.log ++ successLog R env p items c.nextId }) := by
  have hlen : ¬ (items.map Entry.object).length = 0 := by
    intro e
    rw [List.length_map] at e
    exact hne (List.length_eq_zero.mp e)
  simp only [postOrders, hitems, hlen, if_false, tryBlock_accept R env p items c h]

theorem postOrders_status200 (R : Runtime F) (env : Env F) (body : Option (Payload F))
    (c : Conn F) (res : Response) (h : (postOrders R env body c).1 = some res)
    (hs : res.status = 200) :
    ∃ (p : Payload F) (items : List (Item F)),
      body = some p ∧ p.items = some (items.map Entry.object) ∧ items ≠ [] ∧
      ∀ i, i ≤ items.length + 3 → env.rejects (c.calls + i) = false := by
  cases body with
  | none =>
    simp [postOrders] at h
    rw [← h] at hs
    simp at hs
  | some p =>
    cases hitems : p.items with
    | none =>
      simp [postOrders, hitems] at h
      rw [← h] at hs
      simp at hs
    | some entries =>
      by_cases hlen : entries.length = 0
      · simp [postOrders, hitems, hlen] at h
        rw [← h] at hs
        simp at hs
      · simp only [postOrders, hitems, hlen, if_false] at h
        cases hT : tryBlock R env p entries c with
        | mk r c1 =>
          cases r with
          | some res1 =>
            obtain ⟨items, hent, hok⟩ := tryBlock_some R env p entries c res1 (by rw [hT])
            subst hent
            refine ⟨p, items, rfl, hitems, ?_, hok⟩
            intro e
            exact hlen (by simp [e])
          | none =>
            rw [hT] at h
            have := catchBlock_status env c1 res h
            omega

theorem take_split (entries : List (Entry F)) (objs : List (Item F)) (k : Nat)
    (hk1 : 1 ≤ k) (hkN : k ≤ entries.length) (hobjs : entries.take k = objs.map Entry.object) :
    ∃ pre it post, entries = pre.map Entry.object ++ .object it :: post ∧
      pre.length = k - 1 ∧ objs = pre ++ [it] := by
  have hlen : objs.length = k := by
    have := congrArg List.length hobjs
    rw [List.length_take, List.length_map] at this
    omega
  rcases List.eq_nil_or_concat objs with hnil | ⟨pre, it, hcat⟩
  · subst hnil
    simp at hlen
    omega
  · rw [List.concat_eq_append] at hcat
    subst hcat
    refine ⟨pre, it, entries.drop k, ?_, ?_, rfl⟩
    · have := List.take_append_drop k entries
      rw [hobjs] at this
      simpa [List.map_append] using this.symm
    · simp at hlen
      omega

theorem postOrders_item_reject (R : Runtime F) (env : Env F) (p : Payload F)
    (pre : List (Item F)) (it : Item F) (post : List (Entry F)) (c : Conn F)
    (hitems : p.items = some (pre.map Entry.object ++ .object it :: post))
    (hbefore : ∀ i, i ≤ pre.length + 1 → env.rejects (c.calls + i) = false)
    (hreject : env.rejects (c.calls + (pre.length + 2)) = true)
    (hrollback : env.rejects (c.calls + (pre.length + 3)) = false) :
    postOrders R env (some p) c =
      (some { status := 500, body := .error "Failed to create order" },
        { tables := c.tables,
          nextId := c.nextId + 1,
          saved := none,
          calls := c.calls + (pre.length + 4),
          log := c.log ++ ([.beginTransaction, .query (.insertOrder (headerParams R env p))] ++
            (pre ++ [it]).map (fun i => .query (.insertItem (itemParams R c.nextId i))) ++
            [.rollback, .release]) }) := by
  have h0 : env.rejects c.calls = false := by simpa using hbefore 0 (by omega)
  have h1 : env.rejects (c.calls + 1) = false := hbefore 1 (by omega)
  have hI : ∀ j, j < pre.length → env.rejects (c.calls + 1 + 1 + j) = false := by
    intro j hj
    have := hbefore (j + 2) (by omega)
    rw [show c.calls + 1 + 1 + j = c.calls + (j + 2) by omega]
    exact this
  have hR : env.rejects (c.calls + 1 + 1 + pre.length) = true := by
    rw [show c.calls + 1 + 1 + pre.length = c.calls + (pre.length + 2) by omega]
    exact hreject
  have hB : env.rejects (c.calls + 1 + 1 + pre.length + 1) = false := by
    rw [show c.calls + 1 + 1 + pre.length + 1 = c.calls + (pre.length + 3) by omega]
    exact hrollback
  have hlen : ¬ (pre.map Entry.object ++ Entry.object it :: post).length = 0 := by simp
  simp only [postOrders, hitems, hlen, if_false]
  rw [tryBlock, call_accept _ _ _ h0]
  simp only [Conn.applyCall]
  rw [query_accept _ _ _ h1]
  simp only [Conn.applyStmt]
  rw [insertItems_reject R env.rejects _ pre it post _ _ hI hR]
  simp only []
  rw [catchBlock, call_accept _ _ _ hB]
  simp only [Conn.applyCall, Conn.release]
  have e : c.calls + 1 + 1 + pre.length + 1 + 1 = c.calls + (pre.length + 4) := by
    generalize c.calls = a
    generalize pre.length = b
    omega
  simp [e]

/-! ## The log only grows -/

theorem call_log (rejects : Nat → Bool) (c : Conn F) (ev : Call F) :
    (c.call rejects ev).2.log = c.log ++ [ev] := by
  by_cases h : rejects c.calls = true
  · simp [call_reject _ _ _ h]
  · have h : rejects c.calls = false := by simpa using h
    rw [call_accept _ _ _ h]
    cases ev <;> simp [Conn.applyCall, Conn.applyStmt]
    · rename_i s
      cases s <;> rfl
    · split <;> rfl

theorem query_log (rejects : Nat → Bool) (c : Conn F) (s : Stmt F) :
    (c.query rejects s).2.log = c.log ++ [.query s] := by
  by_cases h : rejects c.calls = true
  · simp [query_reject _ _ _ h]
  · have h : rejects c.calls = false := by simpa using h
    rw [query_accept _ _ _ h]
    cases s <;> rfl

theorem insertItems_log (R : Runtime F) (rejects : Nat → Bool) (orderId : Nat) :
    ∀ (entries : List (Entry F)) (total : JNum F) (c : Conn F),
      ∃ l, (insertItems R rejects orderId entries total c).2.log = c.log ++ l
  | [], _, c => ⟨[], by simp [insertItems]⟩
  | .null :: _, _, c => ⟨[], by simp [insertItems]⟩
  | .object it :: rest, total, c => by
    rw [insertItems]
    cases hq : c.query rejects (.insertItem (itemParams R orderId it)) with
    | mk r c1 =>
      have hl : c1.log = c.log ++ [.query (.insertItem (itemParams R orderId it))] := by
        have := query_log rejects c (.insertItem (itemParams R orderId it))
        rw [hq] at this
        exact this
      cases r with
      | none => exact ⟨_, hl⟩
      | some v =>
        obtain ⟨l, hl2⟩ := insertItems_log R rejects orderId rest
          (jadd R total (totalPrice R it)) c1
        refine ⟨.query (.insertItem (itemParams R orderId it)) :: l, ?_⟩
        simp only []
        rw [hl2, hl, List.append_assoc]
        rfl

theorem call_log_of {rejects : Nat → Bool} {c c1 : Conn F} {ev : Call F} {b : Bool}
    (h : c.call rejects ev = (b, c1)) : c1.log = c.log ++ [ev] := by
  have := call_log rejects c ev
  rw [h] at this
  exact this

theorem query_log_of {rejects : Nat → Bool} {c c1 : Conn F} {s : Stmt F} {r : Option Nat}
    (h : c.query rejects s = (r, c1)) : c1.log = c.log ++ [.query s] := by
  have := query_log rejects c s
  rw [h] at this
  exact this

theorem insertItems_log_of {R : Runtime F} {rejects : Nat → Bool} {orderId : Nat}
    {items : List (Entry F)} {total : JNum F} {c c1 : Conn F} {r : Option (JNum F)}
    (h : insertItems R rejects orderId items total c = (r, c1)) : ∃ l, c1.log = c.log ++ l := by
  obtain ⟨l, hl⟩ := insertItems_log R rejects orderId items total c
  rw [h] at hl
  exact ⟨l, hl⟩

theorem tryBlock_log (R : Runtime F) (env : Env F) (p : Payload F) (items : List (Entry F))
    (c : Conn F) (h0 : env.rejects c.calls = false) :
    ∃ l, (tryBlock R env p items c).2.log =
      c.log ++ (.beginTransaction :: .query (.insertOrder (headerParams R env p)) :: l) := by
  rw [tryBlock, call_accept _ _ _ h0]
  simp only [Conn.applyCall]
  split
  · rename_i c2 hq
    have hl := query_log_of hq
    exact ⟨[], by simp [hl]⟩
  · rename_i orderId c2 hq
    have hl := query_log_of hq
    split
    · rename_i c3 hI
      obtain ⟨l3, hl3⟩ := insertItems_log_of hI
      exact ⟨l3, by simp [hl3, hl]⟩
    · rename_i orderTotal c3 hI
      obtain ⟨l3, hl3⟩ := insertItems_log_of hI
      split
      · rename_i c4 hU
        have hl4 := query_log_of hU
        exact ⟨l3 ++ [.query (.updateTotal orderTotal orderId)], by simp [hl4, hl3, hl]⟩
      · rename_i v c4 hU
        have hl4 := query_log_of hU
        split
        · rename_i c5 hC
          have hl5 := call_log_of hC
          exact ⟨l3 ++ [.query (.updateTotal orderTotal orderId), .commit],
            by simp [hl5, hl4, hl3, hl]⟩
        · rename_i c5 hC
          have hl5 := call_log_of hC
          exact ⟨l3 ++ [.query (.updateTotal orderTotal orderId), .commit, .release],
            by simp [Conn.release, hl5, hl4, hl3, hl]⟩

theorem catchBlock_log (env : Env F) (c : Conn F) :
    ∃ l, (catchBlock env c).2.log = c.log ++ l := by
  rw [catchBlock]
  split
  · rename_i c1 hq
    exact ⟨_, call_log_of hq⟩
  · rename_i c1 hq
    exact ⟨[.rollback, .release], by simp [Conn.release, call_log_of hq]⟩

theorem postOrders_log (R : Runtime F) (env : Env F) (p : Payload F) (items : List (Entry F))
    (c : Conn F) (hitems : p.items = some items) (hne : items ≠ [])
    (h0 : env.rejects c.calls = false) :
    ∃ l, (postOrders R env (some p) c).2.log =
      c.log ++ (.beginTransaction :: .query (.insertOrder (headerParams R env p)) :: l) := by
  have hlen : ¬ items.length = 0 := by
    intro e
    exact hne (List.length_eq_zero.mp e)
  obtain ⟨l, hl⟩ := tryBlock_log R env p items c h0
  simp only [postOrders, hitems, hlen, if_false]
  split
  · rename_i res c1 hT
    rw [hT] at hl
    exact ⟨l, hl⟩
  · rename_i c1 hT
    rw [hT] at hl
    obtain ⟨l2, hl2⟩ := catchBlock_log env c1
    refine ⟨l ++ l2, ?_⟩
    rw [hl2]
    simp only [] at hl
    rw [hl]
    simp

/-! ## Characters of an order number -/

theorem hex_table : ∀ n, n < 128 → isHexDigit (Char.ofNat n) = true →
    (Char.ofNat n != '-') = true ∧ isUpperAlnum (Char.ofNat n).toUpper = true := by
  decide

theorem hex_char (c : Char) (h : isHexDigit c = true) :
    (c != '-') = true ∧ c.toNat < 128 ∧ isUpperAlnum c.toUpper = true := by
  have hlt : c.toNat < 128 := by
    simp only [isHexDigit, Bool.or_eq_true, Bool.and_eq_true, decide_eq_true_eq] at h
    omega
  have e : Char.ofNat c.toNat = c := Char.ofNat_toNat c
  have := hex_table c.toNat hlt (by rw [e]; exact h)
  rw [e] at this
  exact ⟨this.1, hlt, this.2⟩

theorem firstSegment_hex (hex rest : List Char) (hhex : ∀ c ∈ hex, isHexDigit c = true) :
    firstSegment (hex ++ '-' :: rest) = hex := by
  induction hex with
  | nil => simp [firstSegment]
  | cons c cs ih =>
    have hc := (hex_char c (hhex c (by simp))).1
    have := ih (fun d hd => hhex d (by simp [hd]))
    simp only [firstSegment] at this ⊢
    simp only [List.cons_append, List.takeWhile_cons, hc, if_true, this]

theorem toUpperCase_hex (R : Runtime F) (hex : List Char)
    (hhex : ∀ c ∈ hex, isHexDigit c = true) :
    toUpperCase R hex = hex.map Char.toUpper := by
  induction hex with
  | nil => simp [toUpperCase]
  | cons c cs ih =>
    have hc := (hex_char c (hhex c (by simp))).2.1
    have := ih (fun d hd => hhex d (by simp [hd]))
    simp only [toUpperCase] at this ⊢
    simp [List.flatMap_cons, hc, this]

theorem orderNumber_injective (R : Runtime F) (u v : String) :
    orderNumber R u = orderNumber R v ↔
      toUpperCase R (firstSegment u.toList) = toUpperCase R (firstSegment v.toList) := by
  constructor
  · intro h
    have := congrArg String.toList h
    simpa [orderNumber] using this
  · intro h
    unfold orderNumber
    rw [h]

/-! ## Rows -/

theorem setTotal_id (total : JNum F) (id : Nat) (r : OrderRow F) :
    (setTotal total id r).id = r.id := by
  unfold setTotal
  split <;> rfl

theorem setTotal_order_number (total : JNum F) (id : Nat) (r : OrderRow F) :
    (setTotal total id r).cols.order_number = r.cols.order_number := by
  unfold setTotal
  split <;> rfl

theorem setTotal_other (total : JNum F) (id : Nat) (r : OrderRow F) (h : r.id ≠ id) :
    setTotal total id r = r := by
  simp [setTotal, h]

theorem map_setTotal_fresh (total : JNum F) (id : Nat) (rows : List (OrderRow F))
    (h : ∀ r ∈ rows, r.id ≠ id) : rows.map (setTotal total id) = rows := by
  have := List.map_congr_left (fun r hr => setTotal_other total id r (h r hr))
  rw [this, List.map_id']

theorem countP_release_inserts (R : Runtime F) (orderId : Nat) (items : List (Item F)) :
    (items.map (fun it => Call.query (.insertItem (itemParams R orderId it)))).countP
      Call.isRelease = 0 := by
  induction items with
  | nil => rfl
  | cons it rest ih => simp [List.countP_cons, Call.isRelease, ih]

theorem countP_query_inserts (R : Runtime F) (orderId : Nat) (items : List (Item F)) :
    (items.map (fun it => Call.query (.insertItem (itemParams R orderId it)))).countP
      Call.isQuery = items.length := by
  induction items with
  | nil => rfl
  | cons it rest ih => simp [List.countP_cons, Call.isQuery, ih]

/-! ## Sums -/

theorem jadd_value (R : Runtime F) (val : F → ℚ) (hexact : R.ExactAdd val) (x y : JNum F) :
    numValue val (jadd R x y) =
      (numValue val x).bind (fun a => (numValue val y).map (fun b => a + b)) := by
  cases x with
  | nan => simp [jadd, numValue]
  | fin a =>
    cases y with
    | nan => simp [jadd, numValue]
    | fin b =>
      obtain ⟨c, hc, hv⟩ := hexact.2 a b
      simp [jadd, numValue, hc, hv]

theorem foldl_jadd_value (R : Runtime F) (val : F → ℚ) (hexact : R.ExactAdd val) :
    ∀ (ts : List (JNum F)) (acc : JNum F),
      numValue val (ts.foldl (jadd R) acc) =
        (numValue val acc).bind
          (fun a => (exactSum (ts.map (numValue val))).map (fun s => a + s))
  | [], acc => by
    cases h : numValue val acc <;> simp [exactSum, h]
  | t :: ts, acc => by
    rw [List.foldl_cons, foldl_jadd_value R val hexact ts, jadd_value R val hexact]
    cases ha : numValue val acc with
    | none => simp
    | some a =>
      cases ht : numValue val t with
      | none => simp [exactSum, ht]
      | some b =>
        cases hs : exactSum (ts.map (numValue val)) with
        | none => simp [exactSum, ht, hs]
        | some r => simp [exactSum, ht, hs, add_assoc]

theorem sumNumbers_value (R : Runtime F) (val : F → ℚ) (hexact : R.ExactAdd val)
    (ts : List (JNum F)) :
    numValue val (sumNumbers R ts) = exactSum (ts.map (numValue val)) := by
  rw [sumNumbers, foldl_jadd_value R val hexact]
  cases hs : exactSum (ts.map (numValue val)) <;> simp [numValue, hexact.1]

/-- The handler on a freshly acquired connection, when every round-trip is accepted. -/
theorem postOrders_acquire_accept (R : Runtime F) (env : Env F) (p : Payload F)
    (items : List (Item F)) (tables : Tables F) (nextId : Nat)
    (hitems : p.items = some (items.map Entry.object)) (hne : items ≠ [])
    (h : ∀ i, i ≤ items.length + 3 → env.rejects i = false) :
    postOrders R env (some p) (Conn.acquire tables nextId) =
      (some { status := 200, body := .created nextId (orderNumber R env.uuid) },
        { tables :=
            { orders := (tables.orders ++ [(⟨nextId, headerParams R env p⟩ : OrderRow F)]).map
                (setTotal (sumNumbers R (items.map (totalPrice R))) nextId),
              order_items := tables.order_items ++ items.map (itemParams R nextId) },
          nextId := nextId + 1,
          saved := none,
          calls := items.length + 4,
          log := [.beginTransaction, .query (.insertOrder (headerParams R env p))] ++
            items.map (fun it => .query (.insertItem (itemParams R nextId it))) ++
            [.query (.updateTotal (sumNumbers R (items.map (totalPrice R))) nextId), .commit,
              .release] }) := by
  rw [postOrders_accept R env p items (Conn.acquire tables nextId) hitems hne
    (fun i hi => by simpa [Conn.acquire] using h i hi)]
  simp [Conn.acquire, successLog]

/-! ## The claims -/

/-- C1 (as stated, refuted): for the body `{ items: [null] }`, whose items list has one entry,
and a store that accepts every call, `it.total_price` throws on line 80 after the header
insert; the handler rolls back and answers 500, and no order row and no item row is left. -/
theorem null_entry_answers_500 :
    payloadNullEntry.items = some [.null] ∧
    (∀ i, sampleEnv.rejects i = false) ∧
    (postOrders intRuntime sampleEnv (some payloadNullEntry) (Conn.acquire emptyTables 1)).1 =
      some { status := 500, body := .error "Failed to create order" } ∧
    (postOrders intRuntime sampleEnv (some payloadNullEntry)
        (Conn.acquire emptyTables 1)).2.log =
      [.beginTransaction,
        .query (.insertOrder (headerParams intRuntime sampleEnv payloadNullEntry)),
        .rollback, .release] ∧
    (postOrders intRuntime sampleEnv (some payloadNullEntry)
        (Conn.acquire emptyTables 1)).2.tables = emptyTables :=
  ⟨rfl, fun _ => rfl, by decide, by decide, by decide⟩

/-- C1 (amended): when the items list has `N ≥ 1` entries, none of them `null`, and the store
accepts every call, the handler answers 200 and commits; the store then holds exactly one new
`orders` row, carrying the key the store assigned, and exactly `N` new `order_items` rows, all
referencing that key; under an exact reading of the runtime's addition the `total_amount` of
the new order row reads as the rational sum of the `total_price` values of those `N` rows
(and is `NaN` as soon as one of them is). -/
theorem order_total_matches_items (R : Runtime F) (env : Env F) (p : Payload F)
    (items : List (Item F)) (tables : Tables F) (nextId : Nat) (val : F → ℚ)
    (hitems : p.items = some (items.map Entry.object)) (hN : 1 ≤ items.length)
    (hok : ∀ i, env.rejects i = false)
    (hkey : ∀ r ∈ tables.orders, r.id ≠ nextId)
    (hexact : R.ExactAdd val) :
    ∃ (row : OrderRow F) (itemRows : List (ItemRow F)) (total : JNum F),
      (postOrders R env (some p) (Conn.acquire tables nextId)).1 =
        some { status := 200, body := .created row.id (orderNumber R env.uuid) } ∧
      (postOrders R env (some p) (Conn.acquire tables nextId)).2.saved = none ∧
      (postOrders R env (some p) (Conn.acquire tables nextId)).2.tables.orders =
        tables.orders ++ [row] ∧
      (postOrders R env (some p) (Conn.acquire tables nextId)).2.tables.order_items =
        tables.order_items ++ itemRows ∧
      row.id = nextId ∧
      itemRows = items.map (itemParams R nextId) ∧
      itemRows.length = items.length ∧
      (∀ r ∈ itemRows, r.order_id = row.id) ∧
      row.cols.total_amount = .num total ∧
      numValue val total = exactSum (itemRows.map (fun r => numValue val r.total_price)) := by
  have hne : items ≠ [] := by
    intro e
    simp [e] at hN
  have hacc := postOrders_acquire_accept R env p items tables nextId hitems hne
    (fun i _ => hok i)
  refine ⟨setTotal (sumNumbers R (items.map (totalPrice R))) nextId
    ⟨nextId, headerParams R env p⟩, items.map (itemParams R nextId),
    sumNumbers R (items.map (totalPrice R)), ?_, ?_, ?_, ?_, ?_, rfl, ?_, ?_, ?_, ?_⟩
  · rw [hacc, setTotal_id]
  · rw [hacc]
  · rw [hacc]
    simp only [List.map_append, List.map_cons, List.map_nil]
    rw [map_setTotal_fresh _ _ _ hkey]
  · rw [hacc]
  · rw [setTotal_id]
  · simp
  · intro r hr
    rw [setTotal_id]
    simp only [List.mem_map] at hr
    obtain ⟨it, _, rfl⟩ := hr
    rfl
  · simp [setTotal]
  · rw [sumNumbers_value R val hexact]
    simp [List.map_map, Function.comp_def, itemParams]

/-- C2: when the request has no body, no `items` field, or an empty `items` list, the handler
answers 400 and makes no call on the connection: no statement is logged and the tables are
as before. -/
theorem missing_items_answered_400 (R : Runtime F) (env : Env F) (body : Option (Payload F))
    (c : Conn F)
    (h : body = none ∨ ∃ p, body = some p ∧ (p.items = none ∨ p.items = some [])) :
    (postOrders R env body c).1 =
        some { status := 400, body := .error "Order must include items" } ∧
      (postOrders R env body c).2.log = c.log ∧
      (postOrders R env body c).2.calls = c.calls ∧
      (postOrders R env body c).2.tables = c.tables := by
  rcases h with rfl | ⟨p, rfl, hp | hp⟩
  · simp [postOrders]
  · simp [postOrders, hp]
  · simp [postOrders, hp]

/-- C3: when the items list has `N ≥ 1` entries, the first `k` of them objects, and the store
accepts `beginTransaction`, the header insert and the first `k - 1` item inserts, rejects the
insert of item `k` and carries out the rollback, the handler answers 500 after the calls
`beginTransaction`, header insert, `k` item inserts, `rollback`, `release`; the tables are
those of before the request and hold no `orders` row with the key assigned to this order and
no `order_items` row referencing it. -/
theorem rejected_item_rolls_back (R : Runtime F) (env : Env F) (p : Payload F)
    (items : List (Entry F)) (objs : List (Item F)) (tables : Tables F) (nextId : Nat)
    (k : Nat)
    (hitems : p.items = some items) (hk1 : 1 ≤ k) (hkN : k ≤ items.length)
    (hobjs : items.take k = objs.map Entry.object)
    (hbefore : ∀ i, i ≤ k → env.rejects i = false)
    (hreject : env.rejects (k + 1) = true)
    (hrollback : env.rejects (k + 2) = false)
    (hkeys : tables.keysBelow nextId) :
    (postOrders R env (some p) (Conn.acquire tables nextId)).1 =
        some { status := 500, body := .error "Failed to create order" } ∧
      (postOrders R env (some p) (Conn.acquire tables nextId)).2.log =
        [.beginTransaction, .query (.insertOrder (headerParams R env p))] ++
          objs.map (fun it => .query (.insertItem (itemParams R nextId it))) ++
          [.rollback, .release] ∧
      (postOrders R env (some p) (Conn.acquire tables nextId)).2.tables = tables ∧
      (postOrders R env (some p) (Conn.acquire tables nextId)).2.saved = none ∧
      (postOrders R env (some p) (Conn.acquire tables nextId)).2.tables.orders.filter
        (fun r => r.id == nextId) = [] ∧
      (postOrders R env (some p) (Conn.acquire tables nextId)).2.tables.order_items.filter
        (fun r => r.order_id == nextId) = [] := by
  obtain ⟨pre, it, post, hsplit, hpre, hcat⟩ := take_split items objs k hk1 hkN hobjs
  have hk : k = pre.length + 1 := by omega
  subst hk
  have hrej := postOrders_item_reject R env p pre it post (Conn.acquire tables nextId)
    (by rw [hitems, hsplit])
    (fun i hi => by
      have := hbefore i hi
      simpa [Conn.acquire] using this)
    (by simpa [Conn.acquire] using hreject)
    (by simpa [Conn.acquire] using hrollback)
  rw [hrej, hcat]
  refine ⟨rfl, by simp [Conn.acquire], rfl, rfl, ?_, ?_⟩
  · simp only [Conn.acquire, List.filter_eq_nil_iff]
    intro r hr
    have := hkeys.1 r hr
    simp
    omega
  · simp only [Conn.acquire, List.filter_eq_nil_iff]
    intro r hr
    have := hkeys.2 r hr
    simp
    omega

/-- C4 (the validation exit): for a body whose `items` list is empty the handler answers 400
and leaves without any call on the acquired connection, so the connection has been released
zero times when the handler finishes. -/
theorem validation_exit_never_releases (R : Runtime F) (env : Env F) (p : Payload F)
    (tables : Tables F) (nextId : Nat) :
    (postOrders R env (some { p with items := some [] }) (Conn.acquire tables nextId)).1 =
        some { status := 400, body := .error "Order must include items" } ∧
      (postOrders R env (some { p with items := some [] }) (Conn.acquire tables nextId)).2.log
        = [] ∧
      (postOrders R env (some { p with items := some [] })
        (Conn.acquire tables nextId)).2.released = 0 := by
  simp [postOrders, Conn.acquire, Conn.released]

/-- The commit exit releases the connection exactly once. -/
theorem commit_exit_releases_once (R : Runtime F) (env : Env F) (p : Payload F)
    (items : List (Item F)) (tables : Tables F) (nextId : Nat)
    (hitems : p.items = some (items.map Entry.object)) (hne : items ≠ [])
    (hok : ∀ i, i ≤ items.length + 3 → env.rejects i = false) :
    (postOrders R env (some p) (Conn.acquire tables nextId)).2.released = 1 := by
  rw [postOrders_accept R env p items (Conn.acquire tables nextId) hitems hne
    (fun i hi => by simpa [Conn.acquire] using hok i hi)]
  simp [Conn.released, Conn.acquire, successLog, List.countP_append, List.countP_cons,
    Call.isRelease, countP_release_inserts]

/-- The exit through the `catch` block after a rejected item insert releases the connection
exactly once, when the rollback is carried out. -/
theorem catch_exit_releases_once (R : Runtime F) (env : Env F) (p : Payload F)
    (pre : List (Item F)) (it : Item F) (post : List (Entry F)) (tables : Tables F)
    (nextId : Nat) (hitems : p.items = some (pre.map Entry.object ++ .object it :: post))
    (hbefore : ∀ i, i ≤ pre.length + 1 → env.rejects i = false)
    (hreject : env.rejects (pre.length + 2) = true)
    (hrollback : env.rejects (pre.length + 3) = false) :
    (postOrders R env (some p) (Conn.acquire tables nextId)).2.released = 1 := by
  rw [postOrders_item_reject R env p pre it post (Conn.acquire tables nextId) hitems
    (fun i hi => by simpa [Conn.acquire] using hbefore i hi)
    (by simpa [Conn.acquire] using hreject)
    (by simpa [Conn.acquire] using hrollback)]
  have h := countP_release_inserts R nextId (pre ++ [it])
  simp only [Conn.released, Conn.acquire, List.nil_append, List.countP_append, h]
  simp [List.countP_cons, Call.isRelease]

/-- C5: when the token of the identifier generator starts with 8 hexadecimal digits followed by
a hyphen, the order number is "ORD-" followed by exactly 8 characters, each an upper-case
letter `A-Z` or a digit `0-9`, 12 characters in all. -/
theorem order_number_format (R : Runtime F) (uuid : String) (hex rest : List Char)
    (hform : uuid.toList = hex ++ '-' :: rest) (hlen : hex.length = 8)
    (hhex : ∀ c ∈ hex, isHexDigit c = true) :
    ∃ tok : List Char,
      orderNumber R uuid = "ORD-" ++ String.mk tok ∧
      tok.length = 8 ∧
      (∀ c ∈ tok, isUpperAlnum c = true) ∧
      (orderNumber R uuid).length = 12 := by
  have htok : toUpperCase R (firstSegment uuid.toList) = hex.map Char.toUpper := by
    rw [hform, firstSegment_hex hex rest hhex, toUpperCase_hex R hex hhex]
  refine ⟨hex.map Char.toUpper, ?_, ?_, ?_, ?_⟩
  · rw [orderNumber, htok]
  · simp [hlen]
  · intro c hc
    simp only [List.mem_map] at hc
    obtain ⟨d, hd, rfl⟩ := hc
    exact (hex_char d (hhex d hd)).2.2
  · rw [orderNumber, htok, String.length_append]
    simp [String.length, hlen]

/-- C6 (the failing request): for the body with the single item
`{ menu_item_id: 5, unit_price: 12 }` the third call on the connection is the item insert that
binds quantity 1, unit price 12 and total price `NaN`, and the update that follows sets the
order's `total_amount` to `NaN`, although 12 times 1 is 12. -/
theorem omitted_quantity_writes_nan :
    (postOrders intRuntime sampleEnv (some payloadWithoutQuantity)
        (Conn.acquire emptyTables 1)).2.log[2]? =
      some (.query (.insertItem
        { order_id := 1, customer_id := .null, menu_item_id := .num (.fin 5),
          quantity := .num (.fin 1), unit_price := .num (.fin 12), total_price := .nan,
          spicy_level := .num (.fin 0), protein_choice := .str "Original",
          special_notes := .null })) ∧
    (postOrders intRuntime sampleEnv (some payloadWithoutQuantity)
        (Conn.acquire emptyTables 1)).2.log[3]? =
      some (.query (.updateTotal .nan 1)) ∧
    jmul intRuntime (.fin 12) (.fin 1) = .fin 12 := by
  decide

/-- Whatever the runtime, an item without `total_price` and without `quantity` is written with
the default quantity and the total price `NaN`. -/
theorem totalPrice_without_quantity (R : Runtime F) (orderId : Nat) (it : Item F) :
    (itemParams R orderId { it with total_price := .undefined, quantity := .undefined }).quantity
        = .num (.fin R.one) ∧
      (itemParams R orderId
        { it with total_price := .undefined, quantity := .undefined }).total_price = .nan := by
  constructor
  · simp [itemParams, orElse, truthy]
  · cases hu : toNumber R it.unit_price <;>
      simp [itemParams, totalPrice, coalesce, nullish, toNumber, jmul, parseFloat, hu]

/-- C7 (as stated, refuted): two successful submissions of the same body, whose tokens differ
but share the first segment, return the same order number. -/
theorem same_segment_same_order_number :
    sampleEnv.uuid ≠ twinEnv.uuid ∧
    (postOrders intRuntime sampleEnv (some samplePayload) (Conn.acquire emptyTables 1)).1 =
      some { status := 200, body := .created 1 "ORD-3F2A9C1E" } ∧
    (postOrders intRuntime twinEnv (some samplePayload)
      (Conn.acquire
        (postOrders intRuntime sampleEnv (some samplePayload)
          (Conn.acquire emptyTables 1)).2.tables
        (postOrders intRuntime sampleEnv (some samplePayload)
          (Conn.acquire emptyTables 1)).2.nextId)).1 =
      some { status := 200, body := .created 2 "ORD-3F2A9C1E" } := by
  decide

/-- C7 (amended): two successful submissions of the same body, one after the other, create two
order rows with distinct assigned keys, each holding the order number returned for it; the two
order numbers differ exactly when the upper-cased first segments of the two tokens differ. -/
theorem resubmission_creates_second_order (R : Runtime F) (env1 env2 : Env F)
    (body : Option (Payload F)) (tables : Tables F) (nextId : Nat) (res1 res2 : Response)
    (h1 : (postOrders R env1 body (Conn.acquire tables nextId)).1 = some res1)
    (hs1 : res1.status = 200)
    (h2 : (postOrders R env2 body
      (Conn.acquire (postOrders R env1 body (Conn.acquire tables nextId)).2.tables
        (postOrders R env1 body (Conn.acquire tables nextId)).2.nextId)).1 = some res2)
    (hs2 : res2.status = 200) :
    ∃ (id1 id2 : Nat) (number1 number2 : String),
      res1.body = .created id1 number1 ∧ res2.body = .created id2 number2 ∧
      id1 ≠ id2 ∧
      (∃ r ∈ (postOrders R env2 body
          (Conn.acquire (postOrders R env1 body (Conn.acquire tables nextId)).2.tables
            (postOrders R env1 body (Conn.acquire tables nextId)).2.nextId)).2.tables.orders,
        r.id = id1 ∧ r.cols.order_number = number1) ∧
      (∃ r ∈ (postOrders R env2 body
          (Conn.acquire (postOrders R env1 body (Conn.acquire tables nextId)).2.tables
            (postOrders R env1 body (Conn.acquire tables nextId)).2.nextId)).2.tables.orders,
        r.id = id2 ∧ r.cols.order_number = number2) ∧
      (number1 ≠ number2 ↔
        toUpperCase R (firstSegment env1.uuid.toList) ≠
          toUpperCase R (firstSegment env2.uuid.toList)) := by
  obtain ⟨p, items, rfl, hitems, hne, hok1⟩ := postOrders_status200 R env1 _ _ res1 h1 hs1
  have e1 := postOrders_acquire_accept R env1 p items tables nextId hitems hne
    (fun i hi => by simpa [Conn.acquire] using hok1 i hi)
  rw [e1] at h1 h2 ⊢
  simp only [] at h1 h2 ⊢
  obtain ⟨p2, items2, hp2, hitems2, _, hok2⟩ := postOrders_status200 R env2 _ _ res2 h2 hs2
  cases hp2
  rw [hitems] at hitems2
  have hsame : items = items2 :=
    List.map_injective_iff.mpr (fun _ _ e => Entry.object.inj e) (Option.some.inj hitems2)
  subst hsame
  have e2 := postOrders_acquire_accept R env2 p items
    ({ orders := (tables.orders ++ [(⟨nextId, headerParams R env1 p⟩ : OrderRow F)]).map
         (setTotal (sumNumbers R (items.map (totalPrice R))) nextId),
       order_items := tables.order_items ++ items.map (itemParams R nextId) } : Tables F)
    (nextId + 1) hitems hne (fun i hi => by simpa [Conn.acquire] using hok2 i hi)
  rw [e2] at h2 ⊢
  simp only [Option.some.injEq] at h1 h2
  refine ⟨nextId, nextId + 1, orderNumber R env1.uuid, orderNumber R env2.uuid, ?_, ?_, ?_, ?_,
    ?_, ?_⟩
  · rw [← h1]
  · rw [← h2]
  · omega
  · refine ⟨setTotal (sumNumbers R (items.map (totalPrice R))) (nextId + 1)
      (setTotal (sumNumbers R (items.map (totalPrice R))) nextId
        ⟨nextId, headerParams R env1 p⟩), ?_, ?_, ?_⟩
    · simp [List.map_append]
    · rw [setTotal_id, setTotal_id]
    · rw [setTotal_order_number, setTotal_order_number]
      rfl
  · refine ⟨setTotal (sumNumbers R (items.map (totalPrice R))) (nextId + 1)
      ⟨nextId + 1, headerParams R env2 p⟩, ?_, ?_, ?_⟩
    · simp [List.map_append]
    · rw [setTotal_id]
    · rw [setTotal_order_number]
      rfl
  · exact not_congr (orderNumber_injective R env1.uuid env2.uuid)

/-- C8: when the handler answers 200, the body's `order_id` is the key the store gave to the
inserted header row and the body's `order_number` is the order number bound in the header
insert and held by that row. -/
theorem success_response_echoes_header (R : Runtime F) (env : Env F)
    (body : Option (Payload F)) (tables : Tables F) (nextId : Nat) (res : Response)
    (h : (postOrders R env body (Conn.acquire tables nextId)).1 = some res)
    (hs : res.status = 200) :
    ∃ (p : Payload F) (items : List (Item F)),
      body = some p ∧ p.items = some (items.map Entry.object) ∧
      res = { status := 200, body := .created nextId (headerParams R env p).order_number } ∧
      (postOrders R env body (Conn.acquire tables nextId)).2.log[1]? =
        some (.query (.insertOrder (headerParams R env p))) ∧
      (postOrders R env body (Conn.acquire tables nextId)).2.tables.orders =
        (tables.orders ++ [(⟨nextId, headerParams R env p⟩ : OrderRow F)]).map
          (setTotal (sumNumbers R (items.map (totalPrice R))) nextId) ∧
      ∃ row ∈ (postOrders R env body (Conn.acquire tables nextId)).2.tables.orders,
        row.id = nextId ∧ row.cols.order_number = (headerParams R env p).order_number := by
  obtain ⟨p, items, rfl, hitems, hne, hok⟩ := postOrders_status200 R env _ _ res h hs
  have e := postOrders_acquire_accept R env p items tables nextId hitems hne
    (fun i hi => by simpa [Conn.acquire] using hok i hi)
  rw [e] at h ⊢
  simp only [Option.some.injEq] at h
  refine ⟨p, items, rfl, hitems, ?_, ?_, rfl, ?_⟩
  · rw [← h]
    rfl
  · simp
  · refine ⟨setTotal (sumNumbers R (items.map (totalPrice R))) nextId
      ⟨nextId, headerParams R env p⟩, ?_, ?_, ?_⟩
    · simp [List.map_append]
    · rw [setTotal_id]
    · rw [setTotal_order_number]

/-- C9 (as stated, refuted): for the body that supplies `session_id: ""`, `table_id: 0` and
`queue_number: ""` the header is inserted with the fallback session id, with `table_id` 1 and
with `queue_number` "A00", not with the supplied values. -/
theorem supplied_falsy_fields_replaced :
    payloadFalsyFields.session_id = .str "" ∧
    payloadFalsyFields.table_id = .num (.fin 0) ∧
    payloadFalsyFields.queue_number = .str "" ∧
    (postOrders intRuntime sampleEnv (some payloadFalsyFields)
        (Conn.acquire emptyTables 1)).2.log[1]? =
      some (.query (.insertOrder
        { order_number := "ORD-3F2A9C1E", session_id := .str "S1700000000000",
          table_id := .num (.fin 1), total_amount := .num (.fin 0),
          queue_number := .str "A00", special_instructions := .null })) := by
  decide

/-- C9 (amended): when the items list is not empty and the store accepts `beginTransaction`,
the second call on the connection is the header insert, with `total_amount` 0, and with
`session_id`, `table_id` and `queue_number` equal to the supplied value when that value is
truthy and otherwise to "S" followed by the timestamp, to 1 and to "A00", respectively. -/
theorem header_defaults_for_falsy_fields (R : Runtime F) (env : Env F) (p : Payload F)
    (items : List (Entry F)) (tables : Tables F) (nextId : Nat)
    (hitems : p.items = some items) (hN : 1 ≤ items.length)
    (hbegin : env.rejects 0 = false) :
    ∃ (hp : OrderParams F) (rest : List (Call F)),
      (postOrders R env (some p) (Conn.acquire tables nextId)).2.log =
        .beginTransaction :: .query (.insertOrder hp) :: rest ∧
      hp.total_amount = .num (.fin R.zero) ∧
      hp.session_id =
        (if truthy R p.session_id = true then p.session_id
         else .str ("S" ++ R.numberToString env.now)) ∧
      hp.table_id =
        (if truthy R p.table_id = true then p.table_id else .num (.fin R.one)) ∧
      hp.queue_number =
        (if truthy R p.queue_number = true then p.queue_number else .str "A00") := by
  have hne : items ≠ [] := by
    intro e
    simp [e] at hN
  obtain ⟨l, hl⟩ := postOrders_log R env p items (Conn.acquire tables nextId) hitems hne hbegin
  exact ⟨headerParams R env p, l, by simpa [Conn.acquire] using hl, rfl, rfl, rfl, rfl⟩

/-- C10: when the handler answers 200 for items `i_1 .. i_N`, the calls on the connection are
exactly `beginTransaction`, one header insert, the `N` item inserts in input order (the `j`-th
one binding the `menu_item_id` of `i_j` and the header's key), one update of `total_amount`,
`commit`, and `release`; `N + 2` statements in all. -/
theorem statements_in_input_order (R : Runtime F) (env : Env F)
    (body : Option (Payload F)) (tables : Tables F) (nextId : Nat) (res : Response)
    (h : (postOrders R env body (Conn.acquire tables nextId)).1 = some res)
    (hs : res.status = 200) :
    ∃ (p : Payload F) (items : List (Item F)),
      body = some p ∧ p.items = some (items.map Entry.object) ∧
      (postOrders R env body (Conn.acquire tables nextId)).2.log =
        [.beginTransaction, .query (.insertOrder (headerParams R env p))] ++
          items.map (fun it => .query (.insertItem (itemParams R nextId it))) ++
          [.query (.updateTotal (sumNumbers R (items.map (totalPrice R))) nextId), .commit,
            .release] ∧
      (∀ it : Item F, (itemParams R nextId it).menu_item_id = it.menu_item_id ∧
        (itemParams R nextId it).order_id = nextId) ∧
      (postOrders R env body (Conn.acquire tables nextId)).2.log.countP Call.isQuery =
        items.length + 2 := by
  obtain ⟨p, items, rfl, hitems, hne, hok⟩ := postOrders_status200 R env _ _ res h hs
  have e := postOrders_acquire_accept R env p items tables nextId hitems hne
    (fun i hi => by simpa [Conn.acquire] using hok i hi)
  rw [e]
  refine ⟨p, items, rfl, hitems, rfl, fun it => ⟨rfl, rfl⟩, ?_⟩
  have hq := countP_query_inserts R nextId items
  simp only [List.countP_append, hq]
  simp [List.countP_cons, Call.isQuery]
  omega

/-! ## The claims on concrete requests -/

theorem order_total_matches_items_witness :
    payloadTwoItems.items = some ([sampleItem, secondItem].map Entry.object) ∧
    1 ≤ [sampleItem, secondItem].length ∧
    (∀ i, sampleEnv.rejects i = false) ∧ (∀ r ∈ emptyTables.orders, r.id ≠ 1) ∧
    intRuntime.ExactAdd (fun x : Int => (x : ℚ)) ∧
    ∃ (row : OrderRow Int) (itemRows : List (ItemRow Int)) (total : JNum Int),
      (postOrders intRuntime sampleEnv (some payloadTwoItems) (Conn.acquire emptyTables 1)).1 =
        some { status := 200, body := .created row.id (orderNumber intRuntime sampleEnv.uuid) } ∧
      (postOrders intRuntime sampleEnv (some payloadTwoItems)
        (Conn.acquire emptyTables 1)).2.saved = none ∧
      (postOrders intRuntime sampleEnv (some payloadTwoItems)
        (Conn.acquire emptyTables 1)).2.tables.orders = emptyTables.orders ++ [row] ∧
      (postOrders intRuntime sampleEnv (some payloadTwoItems)
        (Conn.acquire emptyTables 1)).2.tables.order_items =
          emptyTables.order_items ++ itemRows ∧
      row.id = 1 ∧
      itemRows = [sampleItem, secondItem].map (itemParams intRuntime 1) ∧
      itemRows.length = [sampleItem, secondItem].length ∧
      (∀ r ∈ itemRows, r.order_id = row.id) ∧
      row.cols.total_amount = .num total ∧
      numValue (fun x : Int => (x : ℚ)) total =
        exactSum (itemRows.map (fun r => numValue (fun x : Int => (x : ℚ)) r.total_price)) :=
  ⟨rfl, by decide, fun _ => rfl, by simp [emptyTables],
    ⟨by simp [intRuntime], fun a b => ⟨a + b, rfl, by push_cast; rfl⟩⟩,
    order_total_matches_items intRuntime sampleEnv payloadTwoItems [sampleItem, secondItem]
      emptyTables 1 (fun x : Int => (x : ℚ)) rfl (by decide) (fun _ => rfl)
      (by simp [emptyTables])
      ⟨by simp [intRuntime], fun a b => ⟨a + b, rfl, by push_cast; rfl⟩⟩⟩

theorem missing_items_answered_400_witness :
    ((some payloadNoItems : Option (Payload Int)) = none ∨
      ∃ p, some payloadNoItems = some p ∧ (p.items = none ∨ p.items = some [])) ∧
    (postOrders intRuntime sampleEnv (some payloadNoItems) (Conn.acquire emptyTables 1)).1 =
        some { status := 400, body := .error "Order must include items" } ∧
      (postOrders intRuntime sampleEnv (some payloadNoItems) (Conn.acquire emptyTables 1)).2.log
        = (Conn.acquire emptyTables 1).log ∧
      (postOrders intRuntime sampleEnv (some payloadNoItems)
        (Conn.acquire emptyTables 1)).2.calls = (Conn.acquire emptyTables 1).calls ∧
      (postOrders intRuntime sampleEnv (some payloadNoItems)
        (Conn.acquire emptyTables 1)).2.tables = (Conn.acquire emptyTables 1).tables :=
  ⟨Or.inr ⟨payloadNoItems, rfl, Or.inr rfl⟩,
    missing_items_answered_400 intRuntime sampleEnv (some payloadNoItems)
      (Conn.acquire emptyTables 1) (Or.inr ⟨payloadNoItems, rfl, Or.inr rfl⟩)⟩

theorem rejected_item_rolls_back_witness :
    payloadTwoItems.items = some [.object sampleItem, .object secondItem] ∧ 1 ≤ 1 ∧
    1 ≤ [Entry.object sampleItem, Entry.object secondItem].length ∧
    [Entry.object sampleItem, Entry.object secondItem].take 1 =
      [sampleItem].map Entry.object ∧
    (∀ i, i ≤ 1 → rejectingEnv.rejects i = false) ∧
    rejectingEnv.rejects (1 + 1) = true ∧ rejectingEnv.rejects (1 + 2) = false ∧
    emptyTables.keysBelow 1 ∧
    (postOrders intRuntime rejectingEnv (some payloadTwoItems) (Conn.acquire emptyTables 1)).1 =
        some { status := 500, body := .error "Failed to create order" } ∧
      (postOrders intRuntime rejectingEnv (some payloadTwoItems)
        (Conn.acquire emptyTables 1)).2.log =
        [.beginTransaction,
            .query (.insertOrder (headerParams intRuntime rejectingEnv payloadTwoItems))] ++
          [sampleItem].map (fun it => .query (.insertItem (itemParams intRuntime 1 it))) ++
          [.rollback, .release] ∧
      (postOrders intRuntime rejectingEnv (some payloadTwoItems)
        (Conn.acquire emptyTables 1)).2.tables = emptyTables ∧
      (postOrders intRuntime rejectingEnv (some payloadTwoItems)
        (Conn.acquire emptyTables 1)).2.saved = none ∧
      (postOrders intRuntime rejectingEnv (some payloadTwoItems)
        (Conn.acquire emptyTables 1)).2.tables.orders.filter (fun r => r.id == 1) = [] ∧
      (postOrders intRuntime rejectingEnv (some payloadTwoItems)
        (Conn.acquire emptyTables 1)).2.tables.order_items.filter
          (fun r => r.order_id == 1) = [] :=
  ⟨rfl, by decide, by decide, rfl, by decide, rfl, rfl,
    by simp [Tables.keysBelow, emptyTables],
    rejected_item_rolls_back intRuntime rejectingEnv payloadTwoItems
      [.object sampleItem, .object secondItem] [sampleItem] emptyTables 1 1
      rfl (by decide) (by decide) rfl (by decide) rfl rfl
      (by simp [Tables.keysBelow, emptyTables])⟩

theorem order_number_format_witness :
    sampleEnv.uuid.toList =
      "3f2a9c1e".toList ++ '-' :: "1111-4111-8111-111111111111".toList ∧
    "3f2a9c1e".toList.length = 8 ∧
    (∀ c ∈ "3f2a9c1e".toList, isHexDigit c = true) ∧
    ∃ tok : List Char,
      orderNumber intRuntime sampleEnv.uuid = "ORD-" ++ String.mk tok ∧
      tok.length = 8 ∧
      (∀ c ∈ tok, isUpperAlnum c = true) ∧
      (orderNumber intRuntime sampleEnv.uuid).length = 12 :=
  ⟨by decide, by decide, by decide,
    order_number_format intRuntime sampleEnv.uuid "3f2a9c1e".toList
      "1111-4111-8111-111111111111".toList (by decide) (by decide) (by decide)⟩

theorem resubmission_creates_second_order_witness :
    (postOrders intRuntime sampleEnv (some samplePayload) (Conn.acquire emptyTables 1)).1 =
      some { status := 200, body := .created 1 "ORD-3F2A9C1E" } ∧
    ({ status := 200, body := .created 1 "ORD-3F2A9C1E" } : Response).status = 200 ∧
    (postOrders intRuntime twinEnv (some samplePayload)
      (Conn.acquire
        (postOrders intRuntime sampleEnv (some samplePayload)
          (Conn.acquire emptyTables 1)).2.tables
        (postOrders intRuntime sampleEnv (some samplePayload)
          (Conn.acquire emptyTables 1)).2.nextId)).1 =
      some { status := 200, body := .created 2 "ORD-3F2A9C1E" } ∧
    ({ status := 200, body := .created 2 "ORD-3F2A9C1E" } : Response).status = 200 ∧
    ∃ (id1 id2 : Nat) (number1 number2 : String),
      Body.created 1 "ORD-3F2A9C1E" = .created id1 number1 ∧
      Body.created 2 "ORD-3F2A9C1E" = .created id2 number2 ∧
      id1 ≠ id2 ∧
      (∃ r ∈ (postOrders intRuntime twinEnv (some samplePayload)
          (Conn.acquire
            (postOrders intRuntime sampleEnv (some samplePayload)
              (Conn.acquire emptyTables 1)).2.tables
            (postOrders intRuntime sampleEnv (some samplePayload)
              (Conn.acquire emptyTables 1)).2.nextId)).2.tables.orders,
        r.id = id1 ∧ r.cols.order_number = number1) ∧
      (∃ r ∈ (postOrders intRuntime twinEnv (some samplePayload)
          (Conn.acquire
            (postOrders intRuntime sampleEnv (some samplePayload)
              (Conn.acquire emptyTables 1)).2.tables
            (postOrders intRuntime sampleEnv (some samplePayload)
              (Conn.acquire emptyTables 1)).2.nextId)).2.tables.orders,
        r.id = id2 ∧ r.cols.order_number = number2) ∧
      (number1 ≠ number2 ↔
        toUpperCase intRuntime (firstSegment sampleEnv.uuid.toList) ≠
          toUpperCase intRuntime (firstSegment twinEnv.uuid.toList)) :=
  ⟨by decide, rfl, by decide, rfl,
    resubmission_creates_second_order intRuntime sampleEnv twinEnv (some samplePayload)
      emptyTables 1 { status := 200, body := .created 1 "ORD-3F2A9C1E" }
      { status := 200, body := .created 2 "ORD-3F2A9C1E" } (by decide) rfl (by decide) rfl⟩

theorem success_response_echoes_header_witness :
    (postOrders intRuntime sampleEnv (some samplePayload) (Conn.acquire emptyTables 1)).1 =
      some { status := 200, body := .created 1 "ORD-3F2A9C1E" } ∧
    ({ status := 200, body := .created 1 "ORD-3F2A9C1E" } : Response).status = 200 ∧
    ∃ (p : Payload Int) (items : List (Item Int)),
      some samplePayload = some p ∧ p.items = some (items.map Entry.object) ∧
      ({ status := 200, body := .created 1 "ORD-3F2A9C1E" } : Response) =
        { status := 200,
          body := .created 1 (headerParams intRuntime sampleEnv p).order_number } ∧
      (postOrders intRuntime sampleEnv (some samplePayload)
        (Conn.acquire emptyTables 1)).2.log[1]? =
        some (.query (.insertOrder (headerParams intRuntime sampleEnv p))) ∧
      (postOrders intRuntime sampleEnv (some samplePayload)
        (Conn.acquire emptyTables 1)).2.tables.orders =
        (emptyTables.orders ++
          [(⟨1, headerParams intRuntime sampleEnv p⟩ : OrderRow Int)]).map
          (setTotal (sumNumbers intRuntime (items.map (totalPrice intRuntime))) 1) ∧
      ∃ row ∈ (postOrders intRuntime sampleEnv (some samplePayload)
          (Conn.acquire emptyTables 1)).2.tables.orders,
        row.id = 1 ∧
          row.cols.order_number = (headerParams intRuntime sampleEnv p).order_number :=
  ⟨by decide, rfl,
    success_response_echoes_header intRuntime sampleEnv (some samplePayload) emptyTables 1
      { status := 200, body := .created 1 "ORD-3F2A9C1E" } (by decide) rfl⟩

theorem header_defaults_for_falsy_fields_witness :
    payloadFalsyFields.items = some [.object sampleItem] ∧
    1 ≤ [Entry.object sampleItem].length ∧
    sampleEnv.rejects 0 = false ∧
    ∃ (hp : OrderParams Int) (rest : List (Call Int)),
      (postOrders intRuntime sampleEnv (some payloadFalsyFields)
        (Conn.acquire emptyTables 1)).2.log =
        .beginTransaction :: .query (.insertOrder hp) :: rest ∧
      hp.total_amount = .num (.fin intRuntime.zero) ∧
      hp.session_id =
        (if truthy intRuntime payloadFalsyFields.session_id = true
         then payloadFalsyFields.session_id
         else .str ("S" ++ intRuntime.numberToString sampleEnv.now)) ∧
      hp.table_id =
        (if truthy intRuntime payloadFalsyFields.table_id = true
         then payloadFalsyFields.table_id else .num (.fin intRuntime.one)) ∧
      hp.queue_number =
        (if truthy intRuntime payloadFalsyFields.queue_number = true
         then payloadFalsyFields.queue_number else .str "A00") :=
  ⟨rfl, by decide, rfl,
    header_defaults_for_falsy_fields intRuntime sampleEnv payloadFalsyFields
      [.object sampleItem]
      emptyTables 1 rfl (by decide) rfl⟩

theorem statements_in_input_order_witness :
    (postOrders intRuntime sampleEnv (some samplePayload) (Conn.acquire emptyTables 1)).1 =
      some { status := 200, body := .created 1 "ORD-3F2A9C1E" } ∧
    ({ status := 200, body := .created 1 "ORD-3F2A9C1E" } : Response).status = 200 ∧
    ∃ (p : Payload Int) (items : List (Item Int)),
      some samplePayload = some p ∧ p.items = some (items.map Entry.object) ∧
      (postOrders intRuntime sampleEnv (some samplePayload)
        (Conn.acquire emptyTables 1)).2.log =
        [.beginTransaction, .query (.insertOrder (headerParams intRuntime sampleEnv p))] ++
          items.map (fun it => .query (.insertItem (itemParams intRuntime 1 it))) ++
          [.query (.updateTotal (sumNumbers intRuntime (items.map (totalPrice intRuntime))) 1),
            .commit, .release] ∧
      (∀ it : Item Int, (itemParams intRuntime 1 it).menu_item_id = it.menu_item_id ∧
        (itemParams intRuntime 1 it).order_id = 1) ∧
      (postOrders intRuntime sampleEnv (some samplePayload)
        (Conn.acquire emptyTables 1)).2.log.countP Call.isQuery = items.length + 2 :=
  ⟨by decide, rfl,
    statements_in_input_order intRuntime sampleEnv (some samplePayload) emptyTables 1
      { status := 200, body := .created 1 "ORD-3F2A9C1E" } (by decide) rfl⟩

end OrderServer
